import Mathlib

/-!
Shallow embedding of the pixi-docker Dockerfile generator
(src/config.rs, src/pixi.rs, src/template.rs, src/main.rs).

File reads are modelled explicitly: the optional secondary metadata file
(pixi.toml) is passed around as `Option (Except String PixiToml)`, where
`none` models "the file does not exist" (the `path.exists()` check),
`some (Except.error e)` models "the file exists but reading or parsing it
fails" (the `Result::Err` of `PixiToml::from_file`), and
`some (Except.ok p)` models a successful parse to `p`.
Rust `HashMap`s are modelled as association lists with unique keys
(TOML tables cannot repeat keys); `u16` ports as `Nat`, since no port
arithmetic occurs anywhere in the embedded code.
-/

/-- The `[workspace]` section of pixi.toml (struct WorkspaceConfig, src/pixi.rs). -/
structure WorkspaceConfig where
  name : Option String
  version : Option String
deriving DecidableEq

/-- The `[project]` section of pixi.toml (struct ProjectConfig, src/pixi.rs). -/
structure ProjectConfig where
  name : Option String
  version : Option String
deriving DecidableEq

/-- A structured task entry (struct TaskConfig, src/pixi.rs). -/
structure TaskConfig where
  cmd : String
  env : List (String × String)
  depends_on : Option (List String)
deriving DecidableEq

/-- A task value: bare string or structured record (enum TaskValue, src/pixi.rs). -/
inductive TaskValue where
  | Simple : String → TaskValue
  | Complex : TaskConfig → TaskValue
deriving DecidableEq

/-- Parsed pixi.toml (struct PixiToml, src/pixi.rs). -/
structure PixiToml where
  workspace : Option WorkspaceConfig
  project : Option ProjectConfig
  tasks : List (String × TaskValue)
deriving DecidableEq

/-- PixiToml::get_name (src/pixi.rs lines 50-54): workspace name, else project name. -/
def PixiToml.get_name (p : PixiToml) : Option String :=
  (p.workspace.bind (fun w => w.name)).orElse
    (fun _ => p.project.bind (fun pr => pr.name))

/-- PixiToml::get_version (src/pixi.rs lines 56-60): workspace version, else project version. -/
def PixiToml.get_version (p : PixiToml) : Option String :=
  (p.workspace.bind (fun w => w.version)).orElse
    (fun _ => p.project.bind (fun pr => pr.version))

/-- PixiToml::get_task_command (src/pixi.rs lines 62-67). -/
def PixiToml.get_task_command (p : PixiToml) (task_name : String) : Option String :=
  (p.tasks.lookup task_name).map (fun task =>
    match task with
    | TaskValue.Simple cmd => cmd
    | TaskValue.Complex config => config.cmd)

/-- PixiToml::translate_task_to_shell (src/pixi.rs lines 69-77). -/
def PixiToml.translate_task_to_shell (p : PixiToml) (task_name : String) : Option String :=
  match p.get_task_command task_name with
  | some command => some command
  | none => none

/-- The `[docker]` table of pixi_docker.toml (struct DockerConfig, src/config.rs). -/
structure DockerConfig where
  environment : String
  ports : List Nat
  entrypoint : Option String
  copy_files : List String
  image_name : Option String
  image_tag : Option String
  pixi_version : Option String
  build_command : Option String
  multi_stage : Bool
  base_image : Option String
  template_path : Option String
deriving DecidableEq

/-- A per-environment overlay (struct EnvironmentConfig, src/config.rs). -/
structure EnvironmentConfig where
  ports : List Nat
  entrypoint : Option String
  copy_files : List String
  build_command : Option String
  multi_stage : Option Bool
  base_image : Option String
deriving DecidableEq

/-- The whole primary configuration (struct Config, src/config.rs). -/
structure Config where
  docker : DockerConfig
  environments : List (String × EnvironmentConfig)
deriving DecidableEq

/-- The merged per-environment values computed inside DockerfileGenerator::generate. -/
structure EffectiveSettings where
  ports : List Nat
  entrypoint : Option String
  copy_files : List String
  build_command : Option String
  multi_stage : Bool
  base_image : Option String
deriving DecidableEq

/-- The per-field merge performed by DockerfileGenerator::generate
(src/template.rs lines 41-85): `env_config` is the overlay looked up for the
selected environment; each field falls back to the `[docker]` global exactly
as the corresponding `if let Some(env_cfg)` block does. -/
def resolveSettings (config : Config) (environment : String) : EffectiveSettings :=
  let env_config := config.environments.lookup environment
  { ports :=
      match env_config with
      | some env_cfg => if !env_cfg.ports.isEmpty then env_cfg.ports else config.docker.ports
      | none => config.docker.ports
    entrypoint :=
      match env_config with
      | some env_cfg => env_cfg.entrypoint.orElse (fun _ => config.docker.entrypoint)
      | none => config.docker.entrypoint
    copy_files :=
      match env_config with
      | some env_cfg =>
          if !env_cfg.copy_files.isEmpty then env_cfg.copy_files else config.docker.copy_files
      | none => config.docker.copy_files
    build_command :=
      match env_config with
      | some env_cfg => env_cfg.build_command.orElse (fun _ => config.docker.build_command)
      | none => config.docker.build_command
    multi_stage :=
      match env_config with
      | some env_cfg => env_cfg.multi_stage.getD config.docker.multi_stage
      | none => config.docker.multi_stage
    base_image :=
      match env_config with
      | some env_cfg => env_cfg.base_image.orElse (fun _ => config.docker.base_image)
      | none => config.docker.base_image }

/-- The entrypoint translation performed by DockerfileGenerator::generate
(src/template.rs lines 87-102): absent entrypoint yields `""`; otherwise the
task table is consulted when pixi.toml exists and parses (`if let Ok`), with
the literal entrypoint text as fallback in every failure case. -/
def translatedEntrypoint (entrypoint : Option String)
    (pixi_toml : Option (Except String PixiToml)) : String :=
  match entrypoint with
  | some entrypoint_task =>
    match pixi_toml with
    | some (Except.ok p) =>
        (p.translate_task_to_shell entrypoint_task).getD entrypoint_task
    | some (Except.error _) => entrypoint_task
    | none => entrypoint_task
  | none => ""

/-- The exact context mapping passed to the template-rendering boundary by
DockerfileGenerator::generate (src/template.rs lines 107-116). -/
structure TemplateContext where
  environment : String
  ports : List Nat
  entrypoint : Option String
  copy_files : List String
  pixi_version : Option String
  build_command : Option String
  multi_stage : Bool
  base_image : Option String
deriving DecidableEq

/-- DockerfileGenerator::generate (src/template.rs lines 38-119), up to the
rendering boundary: the rendering itself is the excluded pure function
`(template_text, context) -> output_text`, so generate is embedded as the
context it hands to that boundary. -/
def generateContext (config : Config) (environment : Option String)
    (pixi_toml : Option (Except String PixiToml)) : TemplateContext :=
  let env := environment.getD config.docker.environment
  let s := resolveSettings config env
  let te := translatedEntrypoint s.entrypoint pixi_toml
  { environment := env
    ports := s.ports
    entrypoint := if te.isEmpty then none else some te
    copy_files := s.copy_files
    pixi_version := config.docker.pixi_version
    build_command := s.build_command
    multi_stage := s.multi_stage
    base_image := s.base_image }

/-- DockerfileGenerator::generate_all (src/template.rs lines 121-139): the
default environment first, then every overlay key in mapping order whose name
differs from the default. -/
def generate_all (config : Config)
    (pixi_toml : Option (Except String PixiToml)) : List (String × TemplateContext) :=
  ("Dockerfile." ++ config.docker.environment, generateContext config none pixi_toml) ::
    config.environments.filterMap (fun p =>
      if p.1 = config.docker.environment then none
      else some ("Dockerfile." ++ p.1, generateContext config (some p.1) pixi_toml))

/-- The image-tag determination shared verbatim by build_docker_image
(src/main.rs lines 169-198) and run_docker_container (src/main.rs lines
248-277). `tag` is the CLI-level `-t` value. When it is absent and pixi.toml
exists, `PixiToml::from_file(..)?` propagates a read/parse failure with `?`,
which the `Except.error` branch reproduces. -/
def resolveImageTag (tag : Option String) (docker : DockerConfig)
    (environment : String)
    (pixi_toml : Option (Except String PixiToml)) : Except String String :=
  match tag with
  | some t => Except.ok t
  | none =>
    match pixi_toml with
    | some (Except.error e) => Except.error e
    | some (Except.ok p) =>
        let name := (docker.image_name.orElse (fun _ => p.get_name)).getD "pixi-app"
        let version := (docker.image_tag.orElse (fun _ => p.get_version)).getD environment
        Except.ok (name ++ ":" ++ version)
    | none =>
        let name := docker.image_name.getD "pixi-app"
        let version := docker.image_tag.getD environment
        Except.ok (name ++ ":" ++ version)

/-- The fixed closed set of value-taking flags recognised by the run-argument
classifier (src/main.rs lines 301-309), in source order. -/
def valueTakingFlags : List String :=
  ["-p", "--publish", "-v", "--volume", "-e", "--env", "--name", "--network",
   "--user", "-u", "--workdir", "-w", "--entrypoint", "--hostname",
   "--memory", "-m", "--cpus", "--label", "-l"]

/-- Rust `arg.starts_with('-')` (char overload): the first character is a dash. -/
def startsWithDash (arg : String) : Bool :=
  arg.data.head? == some '-'

/-- Rust `arg.contains('=')` (char overload): some character is an equals sign. -/
def containsEq (arg : String) : Bool :=
  arg.data.contains '='

/-- The loop state of the run-argument classifier in run_docker_container
(src/main.rs lines 286-289). -/
structure ClassifyState where
  docker_options : List String
  container_command : List String
  expecting_value : Bool
deriving DecidableEq

/-- One iteration of the classifier loop (src/main.rs lines 291-331), for one
token `arg`. Branch order follows the source: the `container_command.is_empty()`
test, then `arg.starts_with('-')` (which, when it matches one of the
value-taking flags, sets `expecting_value`; an `=`-carrying or unknown option
clears it), then `expecting_value`, then the command start. -/
def classifyStep (s : ClassifyState) (arg : String) : ClassifyState :=
  if s.container_command.isEmpty then
    if startsWithDash arg then
      { s with
        docker_options := s.docker_options ++ [arg]
        expecting_value :=
          if valueTakingFlags.contains arg then true
          else if containsEq arg then false
          else false }
    else if s.expecting_value then
      { s with docker_options := s.docker_options ++ [arg], expecting_value := false }
    else
      { s with container_command := s.container_command ++ [arg] }
  else
    { s with container_command := s.container_command ++ [arg] }

/-- The classifier loop run from the initial state (empty vectors,
`expecting_value = false`). -/
def classifyRun (docker_args : List String) : ClassifyState :=
  docker_args.foldl classifyStep ⟨[], [], false⟩

/-- The run-argument classifier of run_docker_container (src/main.rs lines
286-331): the final `(docker_options, container_command)` pair. -/
def classify (docker_args : List String) : List String × List String :=
  ((classifyRun docker_args).docker_options, (classifyRun docker_args).container_command)

/-- The classifier step as the specification words it (spec section 4.6): a
pending value-taking flag consumes the next token unconditionally, even one
that looks like another flag; otherwise a dash token is an option, and it
expects a value exactly when it is one of the value-taking flags and carries
no equals sign; otherwise the command starts. Written from the words of the
specification, to compare with `classifyStep`. -/
def classifySpecStep (s : ClassifyState) (arg : String) : ClassifyState :=
  if s.container_command.isEmpty then
    if s.expecting_value then
      { s with docker_options := s.docker_options ++ [arg], expecting_value := false }
    else if startsWithDash arg then
      { s with
        docker_options := s.docker_options ++ [arg]
        expecting_value := valueTakingFlags.contains arg && !(containsEq arg) }
    else
      { s with container_command := s.container_command ++ [arg] }
  else
    { s with container_command := s.container_command ++ [arg] }

/-- The whole classifier as the specification words it, to compare with
`classify`. -/
def classifySpec (docker_args : List String) : List String × List String :=
  let s := docker_args.foldl classifySpecStep ⟨[], [], false⟩
  (s.docker_options, s.container_command)

/-- A concrete `[docker]` table with no image_name and no image_tag, used to
instantiate hypotheses at concrete inputs. -/
def exampleDocker : DockerConfig :=
  { environment := "prod"
    ports := [8080]
    entrypoint := some "serve"
    copy_files := ["app/"]
    image_name := none
    image_tag := none
    pixi_version := none
    build_command := none
    multi_stage := true
    base_image := none
    template_path := none }

/-- A concrete overlay: non-empty ports, entrypoint set, empty copy list,
multi_stage explicitly false. -/
def exampleOverlay : EnvironmentConfig :=
  { ports := [3000]
    entrypoint := some "dev"
    copy_files := []
    build_command := none
    multi_stage := some false
    base_image := none }

/-- A concrete configuration: default environment "prod", one overlay "dev". -/
def exampleConfig : Config :=
  { docker := exampleDocker
    environments := [("dev", exampleOverlay)] }

/-- A concrete pixi.toml with a workspace section and one bare-string task. -/
def examplePixi : PixiToml :=
  { workspace := some { name := some "my-awesome-app", version := some "2.1.0" }
    project := none
    tasks := [("serve", TaskValue.Simple "python -m app")] }

/-- A concrete pixi.toml with both workspace and project sections populated. -/
def examplePixiBoth : PixiToml :=
  { workspace := some { name := some "workspace-name", version := some "2.0.0" }
    project := some { name := some "project-name", version := some "1.0.0" }
    tasks := [] }

/-- Every value-taking flag starts with a dash. -/
theorem valueTakingFlags_startsWithDash {f : String} (hf : f ∈ valueTakingFlags) :
    startsWithDash f = true := by
  fin_cases hf <;> rfl

/-- Membership in the value-taking set makes the boolean `contains` test of
the classifier true. -/
theorem valueTakingFlags_contains {f : String} (hf : f ∈ valueTakingFlags) :
    valueTakingFlags.contains f = true := by
  fin_cases hf <;> rfl

/-- Running the classifier on an extended token list continues from the state
reached on the prefix. -/
theorem classifyRun_append (ts more : List String) :
    classifyRun (ts ++ more) = more.foldl classifyStep (classifyRun ts) := by
  simp [classifyRun, List.foldl_append]

/-- One classifier step appends its token to exactly one of the two output
vectors, preserving their concatenation. -/
theorem classifyStep_partition (s : ClassifyState) (arg : String) :
    (classifyStep s arg).docker_options ++ (classifyStep s arg).container_command
      = s.docker_options ++ s.container_command ++ [arg] := by
  by_cases h1 : s.container_command.isEmpty
  · have hc : s.container_command = [] := by
      cases hl : s.container_command with
      | nil => rfl
      | cons a l => rw [hl] at h1 ; simp [List.isEmpty] at h1
    by_cases h2 : startsWithDash arg
    · simp [classifyStep, h1, h2, hc]
    · by_cases h3 : s.expecting_value
      · simp [classifyStep, h1, h2, h3, hc]
      · simp [classifyStep, h1, h2, h3, hc]
  · simp [classifyStep, h1, List.append_assoc]

/-- The classifier loop preserves the concatenation invariant from any state. -/
theorem classifyRun_partition_aux (ts : List String) (s : ClassifyState) :
    (ts.foldl classifyStep s).docker_options ++ (ts.foldl classifyStep s).container_command
      = s.docker_options ++ s.container_command ++ ts := by
  induction ts generalizing s with
  | nil => simp
  | cons t ts ih =>
    rw [List.foldl_cons, ih (classifyStep s t), classifyStep_partition]
    simp [List.append_assoc]

/-- The names produced by the filterMap of generate_all are the overlay keys
that differ from the default environment, in order. -/
theorem generate_all_fst_aux (config : Config) (pixi : Option (Except String PixiToml))
    (l : List (String × EnvironmentConfig)) :
    (l.filterMap (fun p =>
        if p.1 = config.docker.environment then none
        else some ("Dockerfile." ++ p.1, generateContext config (some p.1) pixi))).map Prod.fst
      = (l.filter (fun p => p.1 != config.docker.environment)).map
          (fun p => "Dockerfile." ++ p.1) := by
  induction l with
  | nil => rfl
  | cons h t ih =>
    by_cases hd : h.1 = config.docker.environment <;> simp [hd, ih]

/-- Claim C1 counterexample: on the token list ["-p", "-v", "bar"] the claim
predicts that "-v" is unconditionally consumed as the value of "-p", so that
"bar" (not a flag, no pending value) starts the container command; the code
instead re-reads "-v" as a fresh value-taking flag (the dash test runs before
the expecting-value test) and then consumes "bar" as its value, leaving the
container command empty. -/
theorem claim_C1_counterexample :
    classify ["-p", "-v", "bar"] = (["-p", "-v", "bar"], [])
    ∧ classifySpec ["-p", "-v", "bar"] = (["-p", "-v"], ["bar"])
    ∧ classify ["-p", "-v", "bar"] ≠ classifySpec ["-p", "-v", "bar"] := by
  refine ⟨rfl, rfl, ?_⟩
  decide

/-- Claim C1 (amended): while no command token has been seen, a token equal to
one of the fixed value-taking flags makes the classifier expect a value, and
the following token is still appended to docker_options with the command left
empty; but that following token is consumed as the flag's value only when it
does not itself start with a dash — a dash-initial token is instead
re-classified as a fresh option and itself expects a value exactly when it is
again one of the value-taking flags. -/
theorem claim_C1 (ts : List String) (f nxt : String)
    (hf : f ∈ valueTakingFlags)
    (hc : (classifyRun ts).container_command = []) :
    (classifyRun (ts ++ [f, nxt])).docker_options
        = (classifyRun ts).docker_options ++ [f, nxt]
    ∧ (classifyRun (ts ++ [f, nxt])).container_command = []
    ∧ (classifyRun (ts ++ [f, nxt])).expecting_value
        = (if startsWithDash nxt then valueTakingFlags.contains nxt else false) := by
  have hrun : classifyRun (ts ++ [f, nxt])
      = classifyStep (classifyStep (classifyRun ts) f) nxt := by
    rw [classifyRun_append] ; rfl
  have hd : startsWithDash f = true := valueTakingFlags_startsWithDash hf
  have hm : valueTakingFlags.contains f = true := valueTakingFlags_contains hf
  have hstep1 : classifyStep (classifyRun ts) f
      = { docker_options := (classifyRun ts).docker_options ++ [f]
          container_command := []
          expecting_value := true } := by
    simp [classifyStep, hc, hd, hm, hf]
  rw [hrun, hstep1]
  by_cases h2 : startsWithDash nxt
  · by_cases h3 : valueTakingFlags.contains nxt
    · simp [classifyStep, h2, h3]
    · simp [classifyStep, h2, h3]
  · simp [classifyStep, h2]

/-- Claim C1 witness: the amended statement instantiated at the empty prefix,
the flag "-p" and the dash-initial next token "-v". -/
theorem claim_C1_witness :
    (classifyRun ["-p", "-v"]).docker_options = ["-p", "-v"]
    ∧ (classifyRun ["-p", "-v"]).container_command = []
    ∧ (classifyRun ["-p", "-v"]).expecting_value
        = (if startsWithDash "-v" then valueTakingFlags.contains "-v" else false) :=
  claim_C1 [] "-p" "-v" (by decide) rfl

/-- Claim C8: a value-taking flag arriving while no command token has been
seen — in particular as the very last token — is pushed into docker_options
with no paired value, the command stays empty and the classifier finishes in
the expecting-value state; no error is raised (the classifier is total). -/
theorem claim_C8 (ts : List String) (f : String)
    (hf : f ∈ valueTakingFlags)
    (hc : (classifyRun ts).container_command = []) :
    classifyRun (ts ++ [f])
      = { docker_options := (classifyRun ts).docker_options ++ [f]
          container_command := []
          expecting_value := true } := by
  have hrun : classifyRun (ts ++ [f]) = classifyStep (classifyRun ts) f := by
    rw [classifyRun_append] ; rfl
  have hd : startsWithDash f = true := valueTakingFlags_startsWithDash hf
  have hm : valueTakingFlags.contains f = true := valueTakingFlags_contains hf
  rw [hrun]
  simp [classifyStep, hc, hd, hm, hf]

/-- Claim C8 witness: the dangling flag "--name" as the sole token. -/
theorem claim_C8_witness :
    classifyRun ["--name"]
      = { docker_options := ["--name"]
          container_command := []
          expecting_value := true } :=
  claim_C8 [] "--name" (by decide) rfl

/-- Claim C9: the classifier partitions its input in order — docker_options
is a prefix and container_command the matching suffix of the token list, so
no token is dropped, duplicated or reordered. -/
theorem claim_C9 (docker_args : List String) :
    (classify docker_args).1 ++ (classify docker_args).2 = docker_args
    ∧ ∃ k, (classify docker_args).1 = docker_args.take k
        ∧ (classify docker_args).2 = docker_args.drop k := by
  have h : (classify docker_args).1 ++ (classify docker_args).2 = docker_args := by
    have := classifyRun_partition_aux docker_args ⟨[], [], false⟩
    simpa [classify, classifyRun] using this
  refine ⟨h, (classify docker_args).1.length, ?_, ?_⟩
  · have h1 := congrArg (List.take (classify docker_args).1.length) h
    rw [List.take_left] at h1
    exact h1
  · have h2 := congrArg (List.drop (classify docker_args).1.length) h
    rw [List.drop_left] at h2
    exact h2

/-- Claim C2 counterexample: with no CLI tag and a pixi.toml that exists but
fails to read or parse, the image resolution shared by build_docker_image and
run_docker_container propagates the failure (the `?` on
`PixiToml::from_file`) and aborts instead of degrading to "no metadata
available", so it does not return a reference. -/
theorem claim_C2_counterexample :
    resolveImageTag none exampleDocker "staging" (some (Except.error "bad toml"))
      = Except.error "bad toml" := rfl

/-- Claim C2 (amended): during image resolution for build and run, a missing
pixi.toml and a pixi.toml that parses but lacks name or version fields both
degrade to the fallback chain and still yield an image reference; but a
pixi.toml that exists and fails to read or parse aborts the operation with
that error. -/
theorem claim_C2 :
    (∀ docker env, resolveImageTag none docker env none
        = Except.ok ((docker.image_name.getD "pixi-app") ++ ":" ++ (docker.image_tag.getD env)))
    ∧ (∀ docker env (p : PixiToml), resolveImageTag none docker env (some (Except.ok p))
        = Except.ok (((docker.image_name.orElse (fun _ => p.get_name)).getD "pixi-app")
            ++ ":" ++ ((docker.image_tag.orElse (fun _ => p.get_version)).getD env)))
    ∧ (∀ docker env e, resolveImageTag none docker env (some (Except.error e))
        = Except.error e) :=
  ⟨fun _ _ => rfl, fun _ _ _ => rfl, fun _ _ _ => rfl⟩

/-- Claim C3: with no CLI tag override, the image name resolves through
image_name, then metadata name, then "pixi-app", and the tag through
image_tag, then metadata version, then the environment name; concretely the
empty configuration with no metadata and environment "staging" gives
"pixi-app:staging", and workspace metadata name "my-awesome-app" version
"2.1.0" gives "my-awesome-app:2.1.0". -/
theorem claim_C3 :
    (∀ docker env (p : PixiToml), resolveImageTag none docker env (some (Except.ok p))
        = Except.ok (((docker.image_name.orElse (fun _ => p.get_name)).getD "pixi-app")
            ++ ":" ++ ((docker.image_tag.orElse (fun _ => p.get_version)).getD env)))
    ∧ (∀ docker : DockerConfig, docker.image_name = none → docker.image_tag = none →
        resolveImageTag none docker "staging" none = Except.ok "pixi-app:staging")
    ∧ (∀ (docker : DockerConfig) (env : String),
        docker.image_name = none → docker.image_tag = none →
        resolveImageTag none docker env
            (some (Except.ok
              { workspace := some { name := some "my-awesome-app", version := some "2.1.0" }
                project := none
                tasks := [] }))
          = Except.ok "my-awesome-app:2.1.0") := by
  refine ⟨fun _ _ _ => rfl, ?_, ?_⟩
  · intro docker h1 h2
    simp [resolveImageTag, h1, h2]
  · intro docker env h1 h2
    simp [resolveImageTag, h1, h2, PixiToml.get_name, PixiToml.get_version, Option.orElse]

/-- Claim C3 witness: both concrete fallback cases instantiated with a
configuration that sets neither image_name nor image_tag. -/
theorem claim_C3_witness :
    resolveImageTag none exampleDocker "staging" none = Except.ok "pixi-app:staging"
    ∧ resolveImageTag none exampleDocker "staging"
        (some (Except.ok
          { workspace := some { name := some "my-awesome-app", version := some "2.1.0" }
            project := none
            tasks := [] }))
      = Except.ok "my-awesome-app:2.1.0" :=
  ⟨claim_C3.2.1 exampleDocker rfl rfl, claim_C3.2.2 exampleDocker "staging" rfl rfl⟩

/-- Claim C10: whenever a CLI-level tag value is supplied, both the build and
the run operation resolve the image reference to exactly that string: the
result does not depend on the configuration, the environment, or the state of
the metadata file — not even on a metadata file whose read or parse fails,
which shows the file is never consulted on this path. -/
theorem claim_C10 (t : String) (docker : DockerConfig) (environment : String)
    (pixi_toml : Option (Except String PixiToml)) :
    resolveImageTag (some t) docker environment pixi_toml = Except.ok t := rfl

/-- Claim C4: the effective settings are computed by the per-field merge rule
of DockerfileGenerator::generate — an environment name absent from the
overlay mapping yields every global value verbatim with no error; with an
overlay present, the list fields win exactly when the overlay list is
non-empty, the optional fields exactly when set, and the tri-state
multi_stage wins when set (an explicit false included) and inherits the
global value when unset. -/
theorem claim_C4 (config : Config) (environment : String) :
    (config.environments.lookup environment = none →
      resolveSettings config environment =
        { ports := config.docker.ports
          entrypoint := config.docker.entrypoint
          copy_files := config.docker.copy_files
          build_command := config.docker.build_command
          multi_stage := config.docker.multi_stage
          base_image := config.docker.base_image })
    ∧ (∀ o, config.environments.lookup environment = some o →
        (resolveSettings config environment).ports
            = (if o.ports = [] then config.docker.ports else o.ports)
        ∧ (resolveSettings config environment).copy_files
            = (if o.copy_files = [] then config.docker.copy_files else o.copy_files)
        ∧ (resolveSettings config environment).entrypoint
            = (match o.entrypoint with
               | some e => some e
               | none => config.docker.entrypoint)
        ∧ (resolveSettings config environment).build_command
            = (match o.build_command with
               | some b => some b
               | none => config.docker.build_command)
        ∧ (resolveSettings config environment).base_image
            = (match o.base_image with
               | some b => some b
               | none => config.docker.base_image)
        ∧ (resolveSettings config environment).multi_stage
            = (match o.multi_stage with
               | some b => b
               | none => config.docker.multi_stage)) := by
  constructor
  · intro h
    simp [resolveSettings, h]
  · intro o h
    refine ⟨?_, ?_, ?_, ?_, ?_, ?_⟩
    · cases hp : o.ports with
      | nil => simp [resolveSettings, h, hp]
      | cons a l => simp [resolveSettings, h, hp]
    · cases hp : o.copy_files with
      | nil => simp [resolveSettings, h, hp]
      | cons a l => simp [resolveSettings, h, hp]
    · cases hp : o.entrypoint with
      | none => simp [resolveSettings, h, hp, Option.orElse]
      | some e => simp [resolveSettings, h, hp, Option.orElse]
    · cases hp : o.build_command with
      | none => simp [resolveSettings, h, hp, Option.orElse]
      | some b => simp [resolveSettings, h, hp, Option.orElse]
    · cases hp : o.base_image with
      | none => simp [resolveSettings, h, hp, Option.orElse]
      | some b => simp [resolveSettings, h, hp, Option.orElse]
    · cases hp : o.multi_stage with
      | none => simp [resolveSettings, h, hp]
      | some b => simp [resolveSettings, h, hp]

/-- Claim C4 witness: the merge rule at the example configuration — an
unknown environment name yields the globals verbatim, and the "dev" overlay
makes its non-empty port list, its entrypoint and its explicit
multi_stage = false win while the empty copy list falls back. -/
theorem claim_C4_witness :
    resolveSettings exampleConfig "unknown" =
      { ports := [8080]
        entrypoint := some "serve"
        copy_files := ["app/"]
        build_command := none
        multi_stage := true
        base_image := none }
    ∧ (resolveSettings exampleConfig "dev").ports = [3000]
    ∧ (resolveSettings exampleConfig "dev").copy_files = ["app/"]
    ∧ (resolveSettings exampleConfig "dev").multi_stage = false := by
  refine ⟨?_, ?_, ?_, ?_⟩
  · rw [(claim_C4 exampleConfig "unknown").1 rfl]
    rfl
  · rw [((claim_C4 exampleConfig "dev").2 exampleOverlay rfl).1]
    rfl
  · rw [((claim_C4 exampleConfig "dev").2 exampleOverlay rfl).2.1]
    rfl
  · rw [((claim_C4 exampleConfig "dev").2 exampleOverlay rfl).2.2.2.2.2]
    rfl

/-- Claim C5: generate_all renders the default environment first and then
each overlay key in mapping order whose name differs from the default, one
artifact per declared environment; with default environment "prod" and a
single overlay "dev" it yields exactly the two artifacts Dockerfile.prod and
Dockerfile.dev, in that order. -/
theorem claim_C5 (config : Config) (pixi_toml : Option (Except String PixiToml)) :
    ((generate_all config pixi_toml).map Prod.fst
        = ("Dockerfile." ++ config.docker.environment)
            :: (config.environments.filter
                  (fun p => p.1 != config.docker.environment)).map
                (fun p => "Dockerfile." ++ p.1))
    ∧ (config.docker.environment = "prod" →
        config.environments.map Prod.fst = ["dev"] →
        (generate_all config pixi_toml).map Prod.fst
          = ["Dockerfile.prod", "Dockerfile.dev"]) := by
  have hnames : (generate_all config pixi_toml).map Prod.fst
      = ("Dockerfile." ++ config.docker.environment)
          :: (config.environments.filter
                (fun p => p.1 != config.docker.environment)).map
              (fun p => "Dockerfile." ++ p.1) := by
    rw [generate_all, List.map_cons, generate_all_fst_aux]
  refine ⟨hnames, ?_⟩
  intro h1 h2
  rw [hnames, h1]
  cases henv : config.environments with
  | nil => rw [henv] at h2 ; simp at h2
  | cons p t =>
    rw [henv] at h2
    rw [List.map_cons] at h2
    have hp : p.1 = "dev" := (List.cons.injEq _ _ _ _ ▸ h2).1
    have ht : t.map Prod.fst = [] := (List.cons.injEq _ _ _ _ ▸ h2).2
    have ht0 : t = [] := List.map_eq_nil_iff.mp ht
    subst ht0
    cases p with
    | mk pn po =>
      have hpn : pn = "dev" := hp
      subst hpn
      rfl

/-- Claim C5 witness: generate_all over the example configuration (default
environment "prod", single overlay "dev") names exactly Dockerfile.prod then
Dockerfile.dev. -/
theorem claim_C5_witness :
    (generate_all exampleConfig none).map Prod.fst
      = ["Dockerfile.prod", "Dockerfile.dev"] :=
  (claim_C5 exampleConfig none).2 rfl rfl

/-- Claim C6: entrypoint translation is total and never errors — an absent
entrypoint yields the empty string; with the entrypoint present, a task-table
hit yields the task command text, and an absent metadata file, a failed
parse, or an unknown task each yield the original entrypoint text verbatim;
in particular translating "serve" with no metadata file returns "serve". -/
theorem claim_C6 :
    (∀ pixi_toml, translatedEntrypoint none pixi_toml = "")
    ∧ (∀ t c (p : PixiToml), p.get_task_command t = some c →
        translatedEntrypoint (some t) (some (Except.ok p)) = c)
    ∧ (∀ t (p : PixiToml), p.get_task_command t = none →
        translatedEntrypoint (some t) (some (Except.ok p)) = t)
    ∧ (∀ t, translatedEntrypoint (some t) none = t)
    ∧ (∀ t e, translatedEntrypoint (some t) (some (Except.error e)) = t)
    ∧ translatedEntrypoint (some "serve") none = "serve" := by
  refine ⟨fun _ => rfl, ?_, ?_, fun _ => rfl, fun _ _ => rfl, rfl⟩
  · intro t c p h
    simp [translatedEntrypoint, PixiToml.translate_task_to_shell, h]
  · intro t p h
    simp [translatedEntrypoint, PixiToml.translate_task_to_shell, h]

/-- Claim C6 witness: with the example pixi.toml the task name "serve" is
translated to its command text, and an unknown task name is kept verbatim. -/
theorem claim_C6_witness :
    translatedEntrypoint (some "serve") (some (Except.ok examplePixi)) = "python -m app"
    ∧ translatedEntrypoint (some "other") (some (Except.ok examplePixi)) = "other" :=
  ⟨claim_C6.2.1 "serve" "python -m app" examplePixi rfl,
   claim_C6.2.2.1 "other" examplePixi rfl⟩

/-- Claim C7: get_name and get_version each return the workspace field when
the workspace section is present and the field is non-null, and otherwise
fall back to the project section's field (absent when that is missing too);
the precedence is per-field and holds however many of the two sections
exist. -/
theorem claim_C7 (p : PixiToml) :
    (∀ w n, p.workspace = some w → w.name = some n → p.get_name = some n)
    ∧ (∀ w v, p.workspace = some w → w.version = some v → p.get_version = some v)
    ∧ ((p.workspace.bind (fun w => w.name)) = none →
        p.get_name = p.project.bind (fun pr => pr.name))
    ∧ ((p.workspace.bind (fun w => w.version)) = none →
        p.get_version = p.project.bind (fun pr => pr.version)) := by
  refine ⟨?_, ?_, ?_, ?_⟩
  · intro w n hw hn
    simp [PixiToml.get_name, hw, hn, Option.orElse]
  · intro w v hw hv
    simp [PixiToml.get_version, hw, hv, Option.orElse]
  · intro h
    simp [PixiToml.get_name, h, Option.orElse]
  · intro h
    simp [PixiToml.get_version, h, Option.orElse]

/-- Claim C7 witness: with both sections populated the workspace values win. -/
theorem claim_C7_witness :
    examplePixiBoth.get_name = some "workspace-name"
    ∧ examplePixiBoth.get_version = some "2.0.0" :=
  ⟨(claim_C7 examplePixiBoth).1 { name := some "workspace-name", version := some "2.0.0" }
      "workspace-name" rfl rfl,
   (claim_C7 examplePixiBoth).2.1 { name := some "workspace-name", version := some "2.0.0" }
      "2.0.0" rfl rfl⟩
